import Mathlib

/-!
Verification development for the Pico Wii-extension joystick firmware
(src/main.rs). The firmware reads calibrated samples from a Wii Classic
controller over I2C and republishes them as USB HID joystick reports; on a
read failure it re-initialises the controller and keeps looping.

The data model and the mapper `get_report` are embedded directly from the
source; the control loop (the body of the infinite `loop` in `main`,
lines 105 to 130) is embedded as a step function over a scripted
environment supplying the read outcomes, sink responses, re-init outcomes
and poll results of each iteration. Machine integers: axes are `i8`,
modelled as `Int` with an explicit two-complement wrap where overflow can
occur; the `u8` button accumulation never exceeds 255 so it is a plain
`Nat` sum.
-/

/-- The calibrated controller sample, `wii_ext::classic::ClassicReadingCalibrated`
of the external controller-driver crate, as used by the source and described by
the spec (CalibratedSample): named boolean button flags plus signed axis values
(left stick, right stick and the two analog triggers), axes being `i8` values
modelled as `Int`. -/
structure ClassicReadingCalibrated where
  joystick_left_x : Int
  joystick_left_y : Int
  joystick_right_x : Int
  joystick_right_y : Int
  trigger_left : Int
  trigger_right : Int
  button_b : Bool
  button_y : Bool
  button_a : Bool
  button_x : Bool
  button_trigger_l : Bool
  button_trigger_r : Bool
  button_zl : Bool
  button_zr : Bool
  button_minus : Bool
  button_plus : Bool
  button_home : Bool
  dpad_up : Bool
  dpad_down : Bool
  dpad_left : Bool
  dpad_right : Bool
  deriving DecidableEq

/-- The USB HID joystick report (`usbd_human_interface_device::device::joystick::JoystickReport`):
a `u8` button bitmask (modelled as `Nat`, provably below 256) and two `i8`
axes (modelled as `Int`). -/
structure JoystickReport where
  buttons : Nat
  x : Int
  y : Int
  deriving DecidableEq

/-- Two-complement wrap of an integer into the signed 8-bit range; the
semantics of wrapping (release-mode) `i8` arithmetic in Rust. -/
def i8Wrap (v : Int) : Int := (v + 128) % 256 - 128

/-- Wrapping semantics of the `i8` negation `-input.joystick_left_y`
(src/main.rs line 149). -/
def i8Neg (v : Int) : Int := i8Wrap (-v)

/-- Overflow-checked `i8` negation: `none` models the arithmetic-overflow
panic of an overflow-checked (debug) build at `-input.joystick_left_y`
(src/main.rs line 149), which fires exactly when the true negation leaves
the `i8` range. -/
def i8NegChecked (v : Int) : Option Int :=
  if -128 ≤ -v ∧ -v ≤ 127 then some (-v) else none

/-- The button accumulation of `get_report` (src/main.rs lines 135 to 144):
`buttons += (input.button_* as u8) << k` for the eight tracked buttons. Each
summand is 0 or 2^k with distinct k below 8, so the `u8` sum is at most 255
and no wrap can occur. -/
def reportButtons (input : ClassicReadingCalibrated) : Nat :=
  input.button_b.toNat <<< 0 +
  input.button_a.toNat <<< 1 +
  input.button_y.toNat <<< 2 +
  input.button_x.toNat <<< 3 +
  input.button_trigger_l.toNat <<< 4 +
  input.button_trigger_r.toNat <<< 5 +
  input.button_minus.toNat <<< 6 +
  input.button_plus.toNat <<< 7

/-- The joystick Mapper `get_report` (src/main.rs lines 133 to 151): button
bitmask, X axis passed through, Y axis negated (wrapping `i8` semantics). -/
def get_report (input : ClassicReadingCalibrated) : JoystickReport :=
  { buttons := reportButtons input
    x := input.joystick_left_x
    y := i8Neg input.joystick_left_y }

/-- The same source function `get_report` under overflow-checked (debug)
`i8` arithmetic: `none` models the panic on negation overflow, so no report
is returned in that case. -/
def get_report_checked (input : ClassicReadingCalibrated) : Option JoystickReport :=
  match i8NegChecked input.joystick_left_y with
  | some ny =>
      some { buttons := reportButtons input
             x := input.joystick_left_x
             y := ny }
  | none => none

/-- Modelled from the spec: the digital-pin variant Mapper (spec 4.3), which
is absent from src/. Pure function CalibratedSample to PinLevel; output is
true exactly when button-B is pressed, all other fields ignored. -/
def pinMapper (input : ClassicReadingCalibrated) : Bool := input.button_b

/-- Outcome of `joy.interface().write_report(..)` (src/main.rs line 114):
success, the benign `UsbHidError::WouldBlock` backpressure condition, or any
other `UsbHidError` (abstracted by a code), which the loop treats as fatal. -/
inductive WriteOutcome where
  | ok
  | wouldBlock
  | err (e : Nat)
  deriving DecidableEq

/-- Observable events of one pass through the loop body, in source order:
the 1 ms delay, the blocking read outcome, the sink interaction (report
emitted, report rejected with would-block, or panic on any other sink
error), the controller re-init on a failed read (carrying the discarded
re-init outcome), and the USB device poll (carrying its discarded boolean
result). `startupFailed` is the panic of the `unwrap` on `Classic::new`
before the loop is ever entered (src/main.rs line 97). -/
inductive Event where
  | delayed
  | readOk (s : ClassicReadingCalibrated)
  | readErr
  | emitted (r : JoystickReport)
  | wouldBlocked (r : JoystickReport)
  | panicked (e : Nat)
  | reinited (ok : Bool)
  | usbPolled (attended : Bool)
  | startupFailed
  deriving DecidableEq

/-- Scripted environment for the loop: for each iteration index, the outcome
of `controller.read_blocking` (line 110), the sink response of
`write_report` for a given report (line 114), the discarded outcome of
`controller.init` (line 125), and the result of `usb_dev.poll` (line 129). -/
structure Env where
  read : Nat → Option ClassicReadingCalibrated
  write : Nat → JoystickReport → WriteOutcome
  reinitOk : Nat → Bool
  pollR : Nat → Bool

/-- One pass through the loop body (src/main.rs lines 105 to 130) at
iteration `n`: delay, read; on a successful read, map the sample with
`get_report` and hand it to the sink, ignoring would-block, panicking on any
other error; on a failed read, re-init the controller and discard the
result. Unless a panic occurred, poll the USB device. Returns the event
trace of the pass and whether the loop continues (`false` = panicked). -/
def iterStep (env : Env) (n : Nat) : List Event × Bool :=
  match env.read n with
  | some input =>
      match env.write n (get_report input) with
      | WriteOutcome.wouldBlock =>
          ([Event.delayed, Event.readOk input, Event.wouldBlocked (get_report input),
            Event.usbPolled (env.pollR n)], true)
      | WriteOutcome.ok =>
          ([Event.delayed, Event.readOk input, Event.emitted (get_report input),
            Event.usbPolled (env.pollR n)], true)
      | WriteOutcome.err e =>
          ([Event.delayed, Event.readOk input, Event.panicked e], false)
  | none =>
      ([Event.delayed, Event.readErr, Event.reinited (env.reinitOk n),
        Event.usbPolled (env.pollR n)], true)

/-- Run the first `n` iterations of the infinite loop, accumulating the
event trace; once an iteration panics, no further iteration runs and the
trace is frozen with continuation flag `false`. -/
def runLoop (env : Env) : Nat → List Event × Bool
  | 0 => ([], true)
  | n + 1 =>
      let p := runLoop env n
      if p.2 then (p.1 ++ (iterStep env n).1, (iterStep env n).2)
      else p

/-- The whole program: `Classic::new(i2c, &mut delay).unwrap()` (src/main.rs
line 97) precedes the loop; if construction and calibration fail the unwrap
panics and the loop is never entered. -/
def runProgram (newOk : Bool) (env : Env) (n : Nat) : List Event × Bool :=
  if newOk then runLoop env n else ([Event.startupFailed], false)

/-- Number of controller re-init invocations recorded in a trace. -/
def countReinit : List Event → Nat
  | [] => 0
  | Event.reinited _ :: rest => 1 + countReinit rest
  | _ :: rest => countReinit rest

/-- Number of USB device polls recorded in a trace. -/
def countPolls : List Event → Nat
  | [] => 0
  | Event.usbPolled _ :: rest => 1 + countPolls rest
  | _ :: rest => countPolls rest

/-- The reports successfully emitted to the sink, in order. -/
def outputs : List Event → List JoystickReport
  | [] => []
  | Event.emitted r :: rest => r :: outputs rest
  | _ :: rest => outputs rest

/-- Number of sink write attempts (accepted or would-blocked) for a given
report recorded in a trace. -/
def writeAttempts (r : JoystickReport) : List Event → Nat
  | [] => 0
  | Event.emitted r2 :: rest =>
      (if r2 = r then 1 else 0) + writeAttempts r rest
  | Event.wouldBlocked r2 :: rest =>
      (if r2 = r then 1 else 0) + writeAttempts r rest
  | _ :: rest => writeAttempts r rest

/-- The scripted read sequence of the spec scenario: fail, fail,
success(S1), success(S2), fail, success(S3), and (beyond the script)
failing reads. -/
def c1Read (S1 S2 S3 : ClassicReadingCalibrated) : Nat → Option ClassicReadingCalibrated
  | 2 => some S1
  | 3 => some S2
  | 5 => some S3
  | _ => none

/-- Environment for the spec scenario: the scripted reads, a sink that
accepts every write, and arbitrary re-init and poll outcomes. -/
def c1Env (S1 S2 S3 : ClassicReadingCalibrated) (ir pr : Nat → Bool) : Env :=
  { read := c1Read S1 S2 S3
    write := fun _ _ => WriteOutcome.ok
    reinitOk := ir
    pollR := pr }

/-- A concrete sample with every button released and every axis centered. -/
def sampleZero : ClassicReadingCalibrated :=
  { joystick_left_x := 0, joystick_left_y := 0
    joystick_right_x := 0, joystick_right_y := 0
    trigger_left := 0, trigger_right := 0
    button_b := false, button_y := false, button_a := false, button_x := false
    button_trigger_l := false, button_trigger_r := false
    button_zl := false, button_zr := false
    button_minus := false, button_plus := false, button_home := false
    dpad_up := false, dpad_down := false, dpad_left := false, dpad_right := false }

/-- A concrete sample with button-B and plus pressed and deflected axes. -/
def sampleBP : ClassicReadingCalibrated :=
  { sampleZero with button_b := true, button_plus := true,
                    joystick_left_x := 17, joystick_left_y := -42 }

/-- `sampleBP` with every unmapped field disturbed: different axes on the
right stick and triggers, different d-pad, home, ZL and ZR flags. -/
def sampleBPnoise : ClassicReadingCalibrated :=
  { sampleBP with joystick_right_x := 99, joystick_right_y := -100,
                  trigger_left := 3, trigger_right := -7,
                  button_zl := true, button_zr := true, button_home := true,
                  dpad_up := true, dpad_down := true,
                  dpad_left := true, dpad_right := true }

/-- `sampleBP` with only the axis values changed (buttons identical). -/
def sampleBPaxes : ClassicReadingCalibrated :=
  { sampleBP with joystick_left_x := -3, joystick_left_y := 120 }

/-- A concrete sample whose left-stick Y is the minimum `i8` value. -/
def sampleYmin : ClassicReadingCalibrated :=
  { sampleZero with joystick_left_y := -128 }

/-- Environment whose sink always reports would-block. -/
def envWouldBlock : Env :=
  { read := fun _ => some sampleBP
    write := fun _ _ => WriteOutcome.wouldBlock
    reinitOk := fun _ => true
    pollR := fun _ => false }

/-- Environment whose sink always fails with a non-backpressure error. -/
def envSinkErr : Env :=
  { read := fun _ => some sampleZero
    write := fun _ _ => WriteOutcome.err 5
    reinitOk := fun _ => true
    pollR := fun _ => true }

/-- Environment whose reads always fail and whose sink always accepts. -/
def envReadFail : Env :=
  { read := fun _ => none
    write := fun _ _ => WriteOutcome.ok
    reinitOk := fun _ => false
    pollR := fun _ => true }

theorem outputs_append (a b : List Event) :
    outputs (a ++ b) = outputs a ++ outputs b := by
  induction a with
  | nil => rfl
  | cons ev rest ih =>
      cases ev <;> simp [outputs, ih]

theorem iterStep_continues_of_no_err (env : Env) (n : Nat)
    (h : ∀ input e, env.read n = some input →
      env.write n (get_report input) ≠ WriteOutcome.err e) :
    (iterStep env n).2 = true := by
  unfold iterStep
  cases hr : env.read n with
  | none => rfl
  | some input =>
      cases hw : env.write n (get_report input) with
      | ok => simp [hw]
      | wouldBlock => simp [hw]
      | err e => exact absurd hw (h input e hr)

theorem runLoop_continues_of_no_err (env : Env)
    (h : ∀ n r e, env.write n r ≠ WriteOutcome.err e) :
    ∀ n, (runLoop env n).2 = true := by
  intro n
  induction n with
  | zero => rfl
  | succ n ih =>
      simp only [runLoop, ih, if_true]
      exact iterStep_continues_of_no_err env n (fun input e _ => h n _ e)

theorem runLoop_frozen_after_halt (env : Env) (n : Nat)
    (h : (runLoop env n).2 = false) :
    ∀ m, n ≤ m → runLoop env m = runLoop env n := by
  intro m hm
  induction m, hm using Nat.le_induction with
  | base => rfl
  | succ m _ ih => simp [runLoop, ih, h]

theorem reportButtons_testBit (b0 b1 b2 b3 b4 b5 b6 b7 : Bool) :
    (b0.toNat <<< 0 + b1.toNat <<< 1 + b2.toNat <<< 2 + b3.toNat <<< 3 +
     b4.toNat <<< 4 + b5.toNat <<< 5 + b6.toNat <<< 6 + b7.toNat <<< 7).testBit 0 = b0 ∧
    (b0.toNat <<< 0 + b1.toNat <<< 1 + b2.toNat <<< 2 + b3.toNat <<< 3 +
     b4.toNat <<< 4 + b5.toNat <<< 5 + b6.toNat <<< 6 + b7.toNat <<< 7).testBit 1 = b1 ∧
    (b0.toNat <<< 0 + b1.toNat <<< 1 + b2.toNat <<< 2 + b3.toNat <<< 3 +
     b4.toNat <<< 4 + b5.toNat <<< 5 + b6.toNat <<< 6 + b7.toNat <<< 7).testBit 2 = b2 ∧
    (b0.toNat <<< 0 + b1.toNat <<< 1 + b2.toNat <<< 2 + b3.toNat <<< 3 +
     b4.toNat <<< 4 + b5.toNat <<< 5 + b6.toNat <<< 6 + b7.toNat <<< 7).testBit 3 = b3 ∧
    (b0.toNat <<< 0 + b1.toNat <<< 1 + b2.toNat <<< 2 + b3.toNat <<< 3 +
     b4.toNat <<< 4 + b5.toNat <<< 5 + b6.toNat <<< 6 + b7.toNat <<< 7).testBit 4 = b4 ∧
    (b0.toNat <<< 0 + b1.toNat <<< 1 + b2.toNat <<< 2 + b3.toNat <<< 3 +
     b4.toNat <<< 4 + b5.toNat <<< 5 + b6.toNat <<< 6 + b7.toNat <<< 7).testBit 5 = b5 ∧
    (b0.toNat <<< 0 + b1.toNat <<< 1 + b2.toNat <<< 2 + b3.toNat <<< 3 +
     b4.toNat <<< 4 + b5.toNat <<< 5 + b6.toNat <<< 6 + b7.toNat <<< 7).testBit 6 = b6 ∧
    (b0.toNat <<< 0 + b1.toNat <<< 1 + b2.toNat <<< 2 + b3.toNat <<< 3 +
     b4.toNat <<< 4 + b5.toNat <<< 5 + b6.toNat <<< 6 + b7.toNat <<< 7).testBit 7 = b7 := by
  revert b0 b1 b2 b3 b4 b5 b6 b7
  decide

/-- C1: fed the scripted read sequence [fail, fail, success(S1), success(S2),
fail, success(S3)] with a sink that accepts every write, the loop re-inits
the controller exactly three times (once per failing read, whatever the
discarded re-init outcomes `ir` are), emits exactly the three mapped reports
`get_report S1, get_report S2, get_report S3` in order, emits nothing on the
failing iterations 0, 1 and 4, and continues after every iteration (it never
terminates). -/
theorem c1_scripted_sequence_recovery
    (S1 S2 S3 : ClassicReadingCalibrated) (ir pr : Nat → Bool) :
    countReinit (runLoop (c1Env S1 S2 S3 ir pr) 6).1 = 3 ∧
    outputs (runLoop (c1Env S1 S2 S3 ir pr) 6).1 =
      [get_report S1, get_report S2, get_report S3] ∧
    outputs (iterStep (c1Env S1 S2 S3 ir pr) 0).1 = [] ∧
    outputs (iterStep (c1Env S1 S2 S3 ir pr) 1).1 = [] ∧
    outputs (iterStep (c1Env S1 S2 S3 ir pr) 4).1 = [] ∧
    ∀ n, (runLoop (c1Env S1 S2 S3 ir pr) n).2 = true := by
  refine ⟨rfl, rfl, rfl, rfl, rfl, ?_⟩
  exact runLoop_continues_of_no_err _ (fun n r e => by simp [c1Env])

/-- C2: for every sample, bit k of the report bitmask is set if and only if
the corresponding button flag is true, with the fixed assignment bit0=B,
bit1=A, bit2=Y, bit3=X, bit4=left trigger, bit5=right trigger, bit6=minus,
bit7=plus; and the bitmask agrees on any two samples with equal button
flags, so it is independent of all axis values. -/
theorem c2_button_bitmask (s t : ClassicReadingCalibrated)
    (hb : s.button_b = t.button_b) (ha : s.button_a = t.button_a)
    (hy : s.button_y = t.button_y) (hx : s.button_x = t.button_x)
    (hl : s.button_trigger_l = t.button_trigger_l)
    (hr : s.button_trigger_r = t.button_trigger_r)
    (hm : s.button_minus = t.button_minus) (hp : s.button_plus = t.button_plus) :
    ((get_report s).buttons.testBit 0 = s.button_b ∧
     (get_report s).buttons.testBit 1 = s.button_a ∧
     (get_report s).buttons.testBit 2 = s.button_y ∧
     (get_report s).buttons.testBit 3 = s.button_x ∧
     (get_report s).buttons.testBit 4 = s.button_trigger_l ∧
     (get_report s).buttons.testBit 5 = s.button_trigger_r ∧
     (get_report s).buttons.testBit 6 = s.button_minus ∧
     (get_report s).buttons.testBit 7 = s.button_plus) ∧
    (get_report s).buttons = (get_report t).buttons := by
  constructor
  · exact reportButtons_testBit s.button_b s.button_a s.button_y s.button_x
      s.button_trigger_l s.button_trigger_r s.button_minus s.button_plus
  · show reportButtons s = reportButtons t
    unfold reportButtons
    rw [hb, ha, hy, hx, hl, hr, hm, hp]

/-- C2 witness: the bitmask contract evaluated at a concrete sample with
button-B and plus pressed, compared with the same buttons under different
axis values. -/
theorem c2_button_bitmask_witness :
    ((get_report sampleBP).buttons.testBit 0 = sampleBP.button_b ∧
     (get_report sampleBP).buttons.testBit 1 = sampleBP.button_a ∧
     (get_report sampleBP).buttons.testBit 2 = sampleBP.button_y ∧
     (get_report sampleBP).buttons.testBit 3 = sampleBP.button_x ∧
     (get_report sampleBP).buttons.testBit 4 = sampleBP.button_trigger_l ∧
     (get_report sampleBP).buttons.testBit 5 = sampleBP.button_trigger_r ∧
     (get_report sampleBP).buttons.testBit 6 = sampleBP.button_minus ∧
     (get_report sampleBP).buttons.testBit 7 = sampleBP.button_plus) ∧
    (get_report sampleBP).buttons = (get_report sampleBPaxes).buttons :=
  c2_button_bitmask sampleBP sampleBPaxes rfl rfl rfl rfl rfl rfl rfl rfl

/-- C3: for every sample, the report X axis is the left-stick X value
unchanged, the report Y axis is the `i8` negation of the left-stick Y value,
and for every in-range Y other than the minimum value -128 that negation is
the exact arithmetic negation, with no clamping or scaling. -/
theorem c3_axis_passthrough_negation (s : ClassicReadingCalibrated) :
    (get_report s).x = s.joystick_left_x ∧
    (get_report s).y = i8Neg s.joystick_left_y ∧
    (-128 ≤ s.joystick_left_y → s.joystick_left_y ≤ 127 →
      s.joystick_left_y ≠ -128 → (get_report s).y = -s.joystick_left_y) := by
  refine ⟨rfl, rfl, ?_⟩
  intro h1 h2 h3
  show i8Neg s.joystick_left_y = -s.joystick_left_y
  unfold i8Neg i8Wrap
  rw [Int.emod_eq_of_lt (by omega) (by omega)]
  omega

/-- C3 witness: the axis contract evaluated at a concrete sample with
x = 17 and y = -42. -/
theorem c3_axis_passthrough_negation_witness :
    (get_report sampleBP).x = sampleBP.joystick_left_x ∧
    (get_report sampleBP).y = -sampleBP.joystick_left_y :=
  ⟨(c3_axis_passthrough_negation sampleBP).1,
   (c3_axis_passthrough_negation sampleBP).2.2 (by decide) (by decide) (by decide)⟩

/-- C4: in every iteration whose read succeeds and whose sink answers
would-block for the mapped report R, the iteration trace is exactly delay,
read, one rejected write of R, poll — so R is attempted exactly once (no
retry), nothing is emitted, no re-init happens, no panic happens, and the
loop continues to the next iteration. -/
theorem c4_would_block_benign (env : Env) (n : Nat)
    (input : ClassicReadingCalibrated)
    (hr : env.read n = some input)
    (hw : env.write n (get_report input) = WriteOutcome.wouldBlock) :
    iterStep env n =
      ([Event.delayed, Event.readOk input, Event.wouldBlocked (get_report input),
        Event.usbPolled (env.pollR n)], true) ∧
    writeAttempts (get_report input) (iterStep env n).1 = 1 ∧
    countReinit (iterStep env n).1 = 0 ∧
    outputs (iterStep env n).1 = [] ∧
    (iterStep env n).2 = true := by
  have h1 : iterStep env n =
      ([Event.delayed, Event.readOk input, Event.wouldBlocked (get_report input),
        Event.usbPolled (env.pollR n)], true) := by
    simp [iterStep, hr, hw]
  refine ⟨h1, ?_, ?_, ?_, ?_⟩ <;> rw [h1] <;>
    simp [writeAttempts, countReinit, outputs]

/-- C4 witness: the would-block contract evaluated on a concrete
environment whose sink always answers would-block. -/
theorem c4_would_block_benign_witness :
    iterStep envWouldBlock 0 =
      ([Event.delayed, Event.readOk sampleBP, Event.wouldBlocked (get_report sampleBP),
        Event.usbPolled (envWouldBlock.pollR 0)], true) ∧
    writeAttempts (get_report sampleBP) (iterStep envWouldBlock 0).1 = 1 ∧
    countReinit (iterStep envWouldBlock 0).1 = 0 ∧
    outputs (iterStep envWouldBlock 0).1 = [] ∧
    (iterStep envWouldBlock 0).2 = true :=
  c4_would_block_benign envWouldBlock 0 sampleBP rfl rfl

/-- C5: if the loop is still running at iteration n, the read succeeds and
the sink fails with a non-backpressure error e, then iteration n ends in the
explicit terminal outcome (trace extended by delay, read, panic e, with
continuation flag false), every later prefix of the run is identical (the
halt is permanent and is propagated out of the loop body as a value), and no
report is ever emitted at or after the failing iteration. -/
theorem c5_sink_error_halts (env : Env) (n : Nat)
    (input : ClassicReadingCalibrated) (e : Nat)
    (halive : (runLoop env n).2 = true)
    (hr : env.read n = some input)
    (hw : env.write n (get_report input) = WriteOutcome.err e) :
    runLoop env (n + 1) =
      ((runLoop env n).1 ++ [Event.delayed, Event.readOk input, Event.panicked e], false) ∧
    (∀ m, n + 1 ≤ m → runLoop env m =
      ((runLoop env n).1 ++ [Event.delayed, Event.readOk input, Event.panicked e], false)) ∧
    (∀ m, n + 1 ≤ m → outputs (runLoop env m).1 = outputs (runLoop env n).1) := by
  have hstep : iterStep env n =
      ([Event.delayed, Event.readOk input, Event.panicked e], false) := by
    simp [iterStep, hr, hw]
  have h1 : runLoop env (n + 1) =
      ((runLoop env n).1 ++ [Event.delayed, Event.readOk input, Event.panicked e], false) := by
    simp [runLoop, halive, hstep]
  have h2 : ∀ m, n + 1 ≤ m → runLoop env m =
      ((runLoop env n).1 ++ [Event.delayed, Event.readOk input, Event.panicked e], false) := by
    intro m hm
    have hfr := runLoop_frozen_after_halt env (n + 1) (by rw [h1]) m hm
    rw [hfr, h1]
  refine ⟨h1, h2, ?_⟩
  intro m hm
  rw [h2 m hm]
  simp [outputs_append, outputs]

/-- C5 witness: the terminal-error contract evaluated on a concrete
environment whose sink always fails with error code 5, at iteration 0. -/
theorem c5_sink_error_halts_witness :
    runLoop envSinkErr 1 =
      ((runLoop envSinkErr 0).1 ++
        [Event.delayed, Event.readOk sampleZero, Event.panicked 5], false) ∧
    (∀ m, 1 ≤ m → runLoop envSinkErr m =
      ((runLoop envSinkErr 0).1 ++
        [Event.delayed, Event.readOk sampleZero, Event.panicked 5], false)) ∧
    (∀ m, 1 ≤ m → outputs (runLoop envSinkErr m).1 = outputs (runLoop envSinkErr 0).1) :=
  c5_sink_error_halts envSinkErr 0 sampleZero 5 rfl rfl rfl

/-- C6 counterexample: on the path where the sink fails with a
non-backpressure error, the iteration panics before reaching
`usb_dev.poll`, so the USB device is polled zero times in that iteration,
not exactly once as the claim states for every path. -/
theorem c6_poll_counterexample :
    countPolls (iterStep envSinkErr 0).1 = 0 ∧
    countPolls (iterStep envSinkErr 0).1 ≠ 1 := by decide

/-- C6 amended: in every iteration that does not end in a panic -- in
particular on both read outcomes, success with the write accepted or
would-blocked, and failure with re-init -- the USB device is polled exactly
once. -/
theorem c6_poll_once_when_continuing (env : Env) (n : Nat)
    (h : (iterStep env n).2 = true) :
    countPolls (iterStep env n).1 = 1 := by
  cases hr : env.read n with
  | none => simp [iterStep, hr, countPolls]
  | some input =>
      cases hw : env.write n (get_report input) with
      | ok => simp [iterStep, hr, hw, countPolls]
      | wouldBlock => simp [iterStep, hr, hw, countPolls]
      | err e => simp [iterStep, hr, hw] at h

/-- C6 witness: the amended poll contract evaluated on a concrete
environment whose reads always fail. -/
theorem c6_poll_once_when_continuing_witness :
    (iterStep envReadFail 0).2 = true ∧
    countPolls (iterStep envReadFail 0).1 = 1 :=
  ⟨rfl, c6_poll_once_when_continuing envReadFail 0 rfl⟩

/-- C7: the digital-pin variant Mapper (modelled from the spec) outputs
exactly the button-B flag, and agrees on any two samples with the same
button-B flag, so every other field is ignored. -/
theorem c7_pin_mapper_button_b (s t : ClassicReadingCalibrated)
    (h : s.button_b = t.button_b) :
    pinMapper s = s.button_b ∧ pinMapper s = pinMapper t :=
  ⟨rfl, h⟩

/-- C7 witness: the pin contract evaluated at a concrete sample with
button-B pressed, compared with a sample disturbed in every other field. -/
theorem c7_pin_mapper_button_b_witness :
    pinMapper sampleBP = sampleBP.button_b ∧
    pinMapper sampleBP = pinMapper sampleBPnoise :=
  c7_pin_mapper_button_b sampleBP sampleBPnoise rfl

/-- C8: under overflow-checked `i8` arithmetic, `get_report` at a sample
whose left-stick Y is the minimum value -128 returns no report (the
negation panics), and at every other in-range Y it returns the report with
the exact negation. -/
theorem c8_neg_overflow_checked (s : ClassicReadingCalibrated)
    (hlo : -128 ≤ s.joystick_left_y) (hhi : s.joystick_left_y ≤ 127) :
    (s.joystick_left_y = -128 → get_report_checked s = none) ∧
    (s.joystick_left_y ≠ -128 →
      get_report_checked s = some (get_report s) ∧
      (get_report s).y = -s.joystick_left_y) := by
  constructor
  · intro h
    simp [get_report_checked, i8NegChecked, h]
  · intro h
    have hneg : i8Neg s.joystick_left_y = -s.joystick_left_y := by
      unfold i8Neg i8Wrap
      rw [Int.emod_eq_of_lt (by omega) (by omega)]
      omega
    have hchk : i8NegChecked s.joystick_left_y = some (-s.joystick_left_y) := by
      unfold i8NegChecked
      rw [if_pos ⟨by omega, by omega⟩]
    constructor
    · simp [get_report_checked, hchk, get_report, hneg]
    · show i8Neg s.joystick_left_y = -s.joystick_left_y
      exact hneg

/-- C8 witness: the checked mapper evaluated at a concrete sample with the
minimum Y value (no report) and at a concrete in-range sample (report
returned). -/
theorem c8_neg_overflow_checked_witness :
    get_report_checked sampleYmin = none ∧
    get_report_checked sampleBP = some (get_report sampleBP) :=
  ⟨(c8_neg_overflow_checked sampleYmin (by decide) (by decide)).1 rfl,
   ((c8_neg_overflow_checked sampleBP (by decide) (by decide)).2 (by decide)).1⟩

/-- C9: any two samples that agree on the eight mapped button flags and on
the left-stick axes produce identical reports, whatever their d-pad, home,
ZL, ZR, right-stick and analog-trigger fields are. -/
theorem c9_report_noninterference (s t : ClassicReadingCalibrated)
    (hb : s.button_b = t.button_b) (ha : s.button_a = t.button_a)
    (hy : s.button_y = t.button_y) (hx : s.button_x = t.button_x)
    (hl : s.button_trigger_l = t.button_trigger_l)
    (hr : s.button_trigger_r = t.button_trigger_r)
    (hm : s.button_minus = t.button_minus) (hp : s.button_plus = t.button_plus)
    (hax : s.joystick_left_x = t.joystick_left_x)
    (hay : s.joystick_left_y = t.joystick_left_y) :
    get_report s = get_report t := by
  unfold get_report reportButtons
  rw [hb, ha, hy, hx, hl, hr, hm, hp, hax, hay]

/-- C9 witness: two concrete samples differing only in unmapped fields
produce the same report. -/
theorem c9_report_noninterference_witness :
    get_report sampleBP = get_report sampleBPnoise :=
  c9_report_noninterference sampleBP sampleBPnoise
    rfl rfl rfl rfl rfl rfl rfl rfl rfl rfl

/-- C10: if the startup construction and calibration fail, the program
panics immediately with only the startup-failure event, performs no re-init
and emits no report (the loop is never entered); if startup succeeds, the
program is exactly the loop, so the re-init recovery policy applies only to
read failures after a successful startup. -/
theorem c10_startup_unwrap (env : Env) (n : Nat) :
    runProgram false env n = ([Event.startupFailed], false) ∧
    countReinit (runProgram false env n).1 = 0 ∧
    outputs (runProgram false env n).1 = [] ∧
    runProgram true env n = runLoop env n :=
  ⟨rfl, rfl, rfl, rfl⟩
